import Mathlib

/-!
Shallow embedding of the voice-command actions module (`action.py`) of the
aiyprojects-raspbian repository, with proofs about its media-playback,
GPIO-cancellation and volume-control behaviour.

Python strings are modelled over ASCII as Lean `String` / `List Char`;
Python integers as `Int` / `Nat`; Python exceptions with `Except`; the
network, the vlc player, the GPIO module and amixer are modelled as explicit
oracles and state that the embedded control flow consumes.
-/

namespace Action

/-- Python `\w` on ASCII: letters, digits and the underscore. -/
def isWordChar (c : Char) : Bool := c.isAlphanum || c == '_'

/-- ASCII whitespace characters removed by Python `str.strip()`. -/
def isPySpace (c : Char) : Bool :=
  c == ' ' || c == '\t' || c == '\n' || c == '\r' || c == '\x0b' || c == '\x0c'

/-- Python `str.lower()` (ASCII). -/
def pyLower (s : String) : String := String.mk (s.data.map Char.toLower)

def pyStripList (l : List Char) : List Char :=
  ((l.dropWhile isPySpace).reverse.dropWhile isPySpace).reverse

/-- Python `str.strip()` with no arguments. -/
def pyStrip (s : String) : String := String.mk (pyStripList s.data)

/-- The string is empty or consists of whitespace only. -/
def isWhitespaceOnly (s : String) : Bool := s.data.all isPySpace

/-- Python `s.replace(old, new, 1)`: replace the first occurrence of `old`
    (with Python's convention that an empty `old` matches at position 0). -/
def replaceFirstList (old new : List Char) : List Char → List Char
  | [] => if old.isEmpty then new else []
  | c :: rest =>
    if old.isPrefixOf (c :: rest) then new ++ (c :: rest).drop old.length
    else c :: replaceFirstList old new rest

def pyReplaceFirst (s old new : String) : String :=
  String.mk (replaceFirstList old.data new.data s.data)

/-- `voice_command.lower().replace(self.keyword, '', 1).strip()` — the query
    extraction shared by `VolumeControl.run`, `YouTubePlayer.run` (line 327)
    and `TuneInRadio.run` (line 421). -/
def extractQuery (keyword cmd : String) : String :=
  pyStrip (pyReplaceFirst (pyLower cmd) keyword "")

/-- Maximal runs of `\w` characters of a string; the accumulator holds the
    current run reversed. -/
def wordRunsAux : List Char → List Char → List (List Char)
  | [], acc => if acc.isEmpty then [] else [acc.reverse]
  | c :: rest, acc =>
    if isWordChar c then wordRunsAux rest (c :: acc)
    else if acc.isEmpty then wordRunsAux rest []
    else acc.reverse :: wordRunsAux rest []

def wordRuns (l : List Char) : List (List Char) := wordRunsAux l []

/-- Strip leading and trailing underscores of a token. -/
def stripUnderscores (l : List Char) : List Char :=
  ((l.dropWhile (· == '_')).reverse.dropWhile (· == '_')).reverse

/-- `' '.join(re.findall(r'(?!_)\w+(?<!_)', track_info['title']))` from
    `YouTubePlayer.run` (lines 362-364). Semantics of that regex: a match must
    start at a `\w` character other than `_` (negative lookahead), the greedy
    `\w+` then extends to the end of the maximal `\w`-run — note that Python's
    `\w` includes `_` — and the negative lookbehind backtracks only over
    trailing underscores. Hence `re.findall` returns exactly the maximal
    `\w`-runs with their leading and trailing underscores stripped, dropping
    all-underscore runs; internal underscores are kept. -/
def sanitizeTitle (title : String) : String :=
  String.intercalate " "
    ((((wordRuns title.data).map stripUnderscores).filter
        (fun t => !t.isEmpty)).map String.mk)

/-- Helper for Python's substring test `sub in s`. -/
def listContains (sub : List Char) : List Char → Bool
  | [] => sub.isEmpty
  | c :: rest => sub.isPrefixOf (c :: rest) || listContains sub rest

/-- Python `sub in s` on ASCII strings. -/
def containsSubstr (s sub : String) : Bool := listContains sub.data s.data

/-! ### Effects, player session state and the GPIO / vlc callbacks

`YouTubePlayer` and `TuneInRadio` contain textually identical copies of
`_init_gpio`, `_on_input_event` and `_on_player_event`; each of those methods
is embedded once below and the embedding stands for both classes. -/

/-- Observable effects of a play / volume session: TTS output, network calls,
    player calls and amixer volume application. -/
inductive Event where
  | say (msg : String)
  | netSearch (query : String)
  | netFetch (url : String)
  | playerSetMedia (url : String)
  | playerPlay
  | playerStop
  | setVolume (v : Int)
deriving DecidableEq, Repr

/-- The spoken messages of a trace, in order. -/
def sayMsgs (trace : List Event) : List String :=
  trace.filterMap fun e =>
    match e with
    | Event.say m => some m
    | _ => none

/-- GPIO edge polarity; `GPIO.FALLING` is the default argument of
    `_init_gpio`. -/
inductive Polarity where
  | rising
  | falling
deriving DecidableEq, Repr

/-- `self.input_value = polarity == GPIO.RISING` (lines 375 / 453). A pin
    level is a `Bool`: `true` = high, `false` = low. -/
def inputVal (polarity : Polarity) : Bool := polarity == Polarity.rising

/-- The per-session state shared between the blocking wait loop and the two
    callbacks: the `self.done` flag (there is no other outcome record in the
    source). -/
structure SessState where
  done : Bool
deriving DecidableEq, Repr

/-- vlc terminal player events subscribed in `_init_player`. -/
inductive VlcEvent where
  | endReached
  | encounteredError
deriving DecidableEq, Repr

/-- `_on_input_event` (lines 393-396 / 471-474):
    `if GPIO.input(channel) == self.input_value: self.player.stop();
    self.done = True`. `pinLevel` is the value `GPIO.input` reads at callback
    time. -/
def onInputEvent (iv : Bool) (pinLevel : Bool) (s : SessState) :
    SessState × List Event :=
  if pinLevel == iv then ({ s with done := true }, [Event.playerStop])
  else (s, [])

/-- `_on_player_event` (lines 398-403 / 476-481): `EndReached` just sets
    `done`; `EncounteredError` speaks `"Can't play " + now_playing` and sets
    `done`. -/
def onPlayerEvent (nowPlaying : String) (e : VlcEvent) (s : SessState) :
    SessState × List Event :=
  match e with
  | VlcEvent.endReached => ({ s with done := true }, [])
  | VlcEvent.encounteredError =>
      ({ s with done := true }, [Event.say ("Can't play " ++ nowPlaying)])

/-- One asynchronous callback invocation racing against the wait loop:
    either the GPIO interrupt (with the pin level read at callback time) or a
    vlc player event. -/
inductive Callback where
  | input (pinLevel : Bool)
  | player (e : VlcEvent)
deriving DecidableEq, Repr

def applyCallback (iv : Bool) (nowPlaying : String) (cb : Callback)
    (s : SessState) : SessState × List Event :=
  match cb with
  | Callback.input lvl => onInputEvent iv lvl s
  | Callback.player e => onPlayerEvent nowPlaying e s

/-- A whole interleaving of callback invocations, run sequentially (each
    callback body is a few atomic-enough statements under the GIL); returns
    the final session state and the concatenated effect trace. -/
def runCallbacks (iv : Bool) (nowPlaying : String) :
    List Callback → SessState → SessState × List Event
  | [], s => (s, [])
  | cb :: rest, s =>
    let r := applyCallback iv nowPlaying cb s
    let r' := runCallbacks iv nowPlaying rest r.1
    (r'.1, r.2 ++ r'.2)

/-! ### GPIO module state and `_init_gpio` -/

inductive PyError where
  | runtimeError
  | indexError
  | attributeError
  | urlError
  | keyError
deriving DecidableEq, Repr

/-- Global state of the `RPi.GPIO` module: the channels with event detection
    registered, and the channel of every attached callback. -/
structure GpioState where
  detect : List Nat
  callbacks : List Nat
deriving DecidableEq, Repr

/-- `GPIO.add_event_detect(channel, polarity, callback=...)`: raises
    `RuntimeError` when detection is already added on the channel, otherwise
    registers detection and the callback. -/
def addEventDetect (ch : Nat) (g : GpioState) : Except PyError GpioState :=
  if ch ∈ g.detect then Except.error PyError.runtimeError
  else Except.ok { detect := ch :: g.detect, callbacks := ch :: g.callbacks }

/-- `GPIO.add_event_callback(channel, callback)`: attaches an additional
    callback; raises `RuntimeError` when the channel has no event detection. -/
def addEventCallback (ch : Nat) (g : GpioState) : Except PyError GpioState :=
  if ch ∈ g.detect then Except.ok { g with callbacks := ch :: g.callbacks }
  else Except.error PyError.runtimeError

/-- `_init_gpio` (lines 374-382 / 452-460): after `setmode`/`setup`, try
    `add_event_detect`; on `RuntimeError`, log and fall back to
    `add_event_callback` on the same channel. -/
def initGpio (ch : Nat) (g : GpioState) : Except PyError GpioState :=
  match addEventDetect ch g with
  | Except.ok g' => Except.ok g'
  | Except.error PyError.runtimeError => addEventCallback ch g
  | Except.error e => Except.error e

/-! ### `YouTubePlayer.run` -/

/-- One youtube search entry as used by `run`: `track_info['url']` and
    `track_info['title']`. -/
structure TrackInfo where
  url : String
  title : String
deriving DecidableEq, Repr

/-- Oracle for `ydl.extract_info(track, download=False)`: the call either
    raises, or returns a value; `returns none` models a falsy result
    (`None` / empty dict) and a `none` list element models a falsy
    `meta['entries'][0]`. With `default_search: 'ytsearch1:'` the result is a
    search playlist dict carrying an `entries` list. -/
inductive YdlOutcome where
  | raises
  | returns (entries : Option (List (Option TrackInfo)))
deriving DecidableEq, Repr

/-- `YouTubePlayer.run` (lines 325-372) up to entering the blocking wait
    loop: returns the effect trace and whether playback was started (i.e. the
    wait loop was entered), or the uncaught Python exception. The `try` only
    covers `extract_info`, so `meta['entries'][0]` on an empty list raises an
    uncaught `IndexError`. -/
def ytRun (keyword cmd : String) (ydl : YdlOutcome) :
    Except PyError (List Event × Bool) :=
  let track := extractQuery keyword cmd
  if track = "" then Except.ok ([Event.say "Please specify a song"], false)
  else
    match ydl with
    | YdlOutcome.raises =>
        Except.ok
          ([Event.netSearch track, Event.say ("Failed to find " ++ track)],
           false)
    | YdlOutcome.returns none =>
        Except.ok
          ([Event.netSearch track, Event.say ("Failed to find " ++ track)],
           false)
    | YdlOutcome.returns (some []) => Except.error PyError.indexError
    | YdlOutcome.returns (some (none :: _)) =>
        Except.ok
          ([Event.netSearch track, Event.say ("Failed to find " ++ track)],
           false)
    | YdlOutcome.returns (some (some ti :: _)) =>
        Except.ok
          ([Event.netSearch track,
            Event.playerSetMedia ti.url,
            Event.say ("Now playing " ++ sanitizeTitle ti.title),
            Event.playerPlay],
           true)

/-! ### `TuneInRadio`: `_search`, `_get_stream_url`, `run` -/

def BASE_URL : String := "http://tunein.com/"

def FILTER_STATIONS : String := "Stations"

def searchUrl (q : String) : String := BASE_URL ++ "search/?query=" ++ q

def stationUrl (stationId : String) : String :=
  BASE_URL ++ "station/?stationId=" ++ stationId

/-- One entry of a `GuideItems` list: `station['Id']` and `station['Title']`. -/
structure GuideItem where
  id : String
  title : String
deriving DecidableEq, Repr

/-- One entry of `result['ContainerGuideItems']['containers']`. -/
structure Container where
  title : String
  guideItems : List GuideItem
deriving DecidableEq, Repr

/-- Oracle for the search-page fetch plus the
    `re.search(r'TuneIn.payload = ({.*})', body)` marker and `json.loads`:
    the fetch faults, or the marker is absent (`re.search` returns `None`),
    or the embedded payload parses to a container list. -/
inductive SearchPage where
  | fault
  | noMarker
  | payload (containers : List Container)
deriving DecidableEq, Repr

/-- The category loop of `_search` (lines 503-509): the `GuideItems` of the
    first container whose `Title` equals the filter. -/
def findStations (filter : String) : List Container → Option (List GuideItem)
  | [] => none
  | c :: rest =>
    if c.title = filter then some c.guideItems else findStations filter rest

/-- `TuneInRadio._search` (lines 483-509): one fetch of the search page, then
    marker match and payload scan; a fetch fault is an uncaught `URLError`.
    Returns its fetch trace and `None` (no marker / no matching category) or
    the matching category's items. -/
def tuneinSearch (searchStr : String) (page : SearchPage) :
    Except PyError (List Event × Option (List GuideItem)) :=
  match page with
  | SearchPage.fault => Except.error PyError.urlError
  | SearchPage.noMarker => Except.ok ([Event.netFetch (searchUrl searchStr)], none)
  | SearchPage.payload containers =>
      Except.ok
        ([Event.netFetch (searchUrl searchStr)],
         findStations FILTER_STATIONS containers)

/-- Oracle for the station-detail fetch plus the
    `re.search(r'"StreamUrl":"(.*?)"', body)` marker: fetch fault, marker
    absent (`re.search` returns `None`), or the captured group value (possibly
    the empty string). -/
inductive DetailPage where
  | fault
  | noMarker
  | streamUrl (u : String)
deriving DecidableEq, Repr

/-- Oracle for the stream-list fetch plus `json.loads` and
    `result['Streams']`: fetch fault, JSON object without a `Streams` key
    (`KeyError`), or the list of the entries' `Url` values. -/
inductive StreamListPage where
  | fault
  | noStreamsKey
  | streams (urls : List String)
deriving DecidableEq, Repr

/-- `TuneInRadio._get_stream_url` (lines 511-533) together with
    `_get_stream_list` (lines 535-544). When the `"StreamUrl"` marker is
    absent, `result` is `None` and `result.group(1)` raises an uncaught
    `AttributeError`; an empty captured group returns `None`; otherwise the
    redirect JSON at `'http:' + group(1)` is fetched and the first stream's
    `Url` is returned (`None` when the stream list is empty). -/
def getStreamUrl (stationId : String) (detail : DetailPage)
    (listPage : StreamListPage) : Except PyError (List Event × Option String) :=
  match detail with
  | DetailPage.fault => Except.error PyError.urlError
  | DetailPage.noMarker => Except.error PyError.attributeError
  | DetailPage.streamUrl u =>
    if u = "" then Except.ok ([Event.netFetch (stationUrl stationId)], none)
    else
      match listPage with
      | StreamListPage.fault => Except.error PyError.urlError
      | StreamListPage.noStreamsKey => Except.error PyError.keyError
      | StreamListPage.streams [] =>
          Except.ok
            ([Event.netFetch (stationUrl stationId),
              Event.netFetch ("http:" ++ u)], none)
      | StreamListPage.streams (s :: _) =>
          Except.ok
            ([Event.netFetch (stationUrl stationId),
              Event.netFetch ("http:" ++ u)], some s)

/-- `TuneInRadio.run` (lines 419-450) up to entering the blocking wait loop:
    returns the effect trace and whether playback was started, or the uncaught
    Python exception. -/
def radioRun (keyword cmd : String) (page : SearchPage) (detail : DetailPage)
    (listPage : StreamListPage) : Except PyError (List Event × Bool) :=
  let searchStr := extractQuery keyword cmd
  if searchStr = "" then
    Except.ok ([Event.say "Please specify a station"], false)
  else
    match tuneinSearch searchStr page with
    | Except.error e => Except.error e
    | Except.ok (evs, stations) =>
      match stations with
      | none =>
          Except.ok (evs ++ [Event.say "Didn't find any stations"], false)
      | some [] =>
          Except.ok (evs ++ [Event.say "Didn't find any stations"], false)
      | some (st :: _) =>
        match getStreamUrl st.id detail listPage with
        | Except.error e => Except.error e
        | Except.ok (evs', none) =>
            Except.ok
              (evs ++ evs' ++ [Event.say "Didn't find any streams"], false)
        | Except.ok (evs', some url) =>
            Except.ok
              (evs ++ evs' ++
               [Event.playerSetMedia url,
                Event.say ("Now playing " ++ st.title),
                Event.playerPlay],
               true)

/-! ### `VolumeControl` -/

/-- `VolumeControl.set` (lines 210-217): clamp to 0..100, apply via amixer
    and record in `self.value` (the success path of the `try`). Returns the
    recorded value and the effect trace. -/
def volumeSet (value : Int) : Int × List Event :=
  let vol := max 0 (min 100 value)
  (vol, [Event.setVolume vol])

/-- `%d` rendering of `_('Volume at %d %%.') % self.value`. -/
def volMsg (v : Int) : String := "Volume at " ++ toString v ++ " %."

/-- `VolumeControl.tell` (lines 219-223): `if not self.value` — note that
    both `None` and `0` are falsy — re-read the volume from amixer (oracle
    `amixer`) and overwrite `self.value`, then speak it. -/
def volumeTell (value : Option Int) (amixer : Int) : Option Int × List Event :=
  match value with
  | none => (some amixer, [Event.say (volMsg amixer)])
  | some v =>
    if v = 0 then (some amixer, [Event.say (volMsg amixer)])
    else (some v, [Event.say (volMsg v)])

/-- The first run of decimal digits of the mode string, as matched by
    `re.search(r'\d+', mode)` and converted by `int`. -/
def parseFirstNumber (s : String) : Option Nat :=
  match s.data.dropWhile (fun c => !c.isDigit) with
  | [] => none
  | c :: rest =>
    some (((c :: rest).takeWhile Char.isDigit).foldl
      (fun n d => 10 * n + (d.toNat - '0'.toNat)) 0)

/-- A `set` followed by the trailing `tell` of `VolumeControl.run`. -/
def setThenTell (r : Int × List Event) (amixer : Int) :
    Option Int × List Event :=
  let t := volumeTell (some r.1) amixer
  (t.1, r.2 ++ t.2)

/-- `VolumeControl.run` (lines 182-203): dispatch on the mode word;
    `increment(v)` (lines 205-208) reads the current volume from amixer
    (oracle `amixer`) and calls `set(current + v)`; a mode with no digits
    speaks "Please specify a value." and returns without `tell`. `value0` is
    `self.value` on entry. Returns the final `self.value` and the trace. -/
def volumeRun (keyword cmd : String) (amixer : Int) (value0 : Option Int) :
    Option Int × List Event :=
  let mode := extractQuery keyword cmd
  if mode = "up" then setThenTell (volumeSet (amixer + 10)) amixer
  else if mode = "down" then setThenTell (volumeSet (amixer + (-10))) amixer
  else if mode = "max" then setThenTell (volumeSet 100) amixer
  else if mode = "mute" then setThenTell (volumeSet 0) amixer
  else if mode ≠ "" then
    match parseFirstNumber mode with
    | some n => setThenTell (volumeSet (Int.ofNat n)) amixer
    | none => (value0, [Event.say "Please specify a value."])
  else
    volumeTell value0 amixer

/-- The volumes applied by a trace (its `setVolume` events, in order). -/
def setVolumes (trace : List Event) : List Int :=
  trace.filterMap fun e =>
    match e with
    | Event.setVolume v => some v
    | _ => none

/-! ## Helper lemmas -/

theorem pyStrip_eq_empty (s : String) (h : isWhitespaceOnly s = true) :
    pyStrip s = "" := by
  have h1 : s.data.dropWhile isPySpace = [] :=
    List.dropWhile_eq_nil_iff.mpr
      (by simpa [isWhitespaceOnly, List.all_eq_true] using h)
  unfold pyStrip pyStripList
  rw [h1]
  rfl

theorem extractQuery_eq_empty (kw cmd : String)
    (h : isWhitespaceOnly (pyReplaceFirst (pyLower cmd) kw "") = true) :
    extractQuery kw cmd = "" :=
  pyStrip_eq_empty _ h

theorem isPrefixOf_self (l : List Char) : l.isPrefixOf l = true := by
  induction l with
  | nil => rfl
  | cons c t ih => simp [ih]

theorem listContains_append_right (pre sub : List Char) :
    listContains sub (pre ++ sub) = true := by
  induction pre with
  | nil =>
    cases sub with
    | nil => rfl
    | cons c t => simp [listContains, isPrefixOf_self]
  | cons c t ih => simp [listContains, ih]

theorem containsSubstr_append (a q : String) :
    containsSubstr (a ++ q) q = true := by
  unfold containsSubstr
  have h : (a ++ q).data = a.data ++ q.data := by
    cases a; cases q; rfl
  rw [h]
  exact listContains_append_right a.data q.data

/-! ## Claims -/

/-- C1, code-bug evidence: the source comment (line 362) says the lookarounds
    are there to remove `_`, and the spec requires the cleaned label of
    `"foo_bar__42!!baz"` to be `"foo bar 42 baz"`; but since Python `\w`
    includes `_`, the greedy `\w+` swallows internal underscores and the code
    actually produces `"foo_bar__42 baz"`. -/
theorem c1_title_sanitization_failing_input :
    sanitizeTitle "foo_bar__42!!baz" = "foo_bar__42 baz" ∧
    sanitizeTitle "foo_bar__42!!baz" ≠ "foo bar 42 baz" := by decide

/-- C2: a voice command whose keyword-stripped remainder is empty or
    whitespace-only makes both `YouTubePlayer.run` and `TuneInRadio.run`
    return after a single "please specify" report: the whole effect trace is
    that one `say`, so no network call and no player call occur, and no
    exception escapes. -/
theorem c2_empty_query_short_circuits (kw cmd : String) (ydl : YdlOutcome)
    (page : SearchPage) (detail : DetailPage) (listPage : StreamListPage)
    (h : isWhitespaceOnly (pyReplaceFirst (pyLower cmd) kw "") = true) :
    ytRun kw cmd ydl = Except.ok ([Event.say "Please specify a song"], false) ∧
    radioRun kw cmd page detail listPage =
      Except.ok ([Event.say "Please specify a station"], false) := by
  have hq := extractQuery_eq_empty kw cmd h
  constructor
  · unfold ytRun
    rw [hq]
    rfl
  · unfold radioRun
    rw [hq]
    rfl

theorem c2_witness :
    ytRun "play" "PLAY  " YdlOutcome.raises =
      Except.ok ([Event.say "Please specify a song"], false) ∧
    radioRun "play" "PLAY  " SearchPage.fault DetailPage.fault
        StreamListPage.fault =
      Except.ok ([Event.say "Please specify a station"], false) :=
  c2_empty_query_short_circuits "play" "PLAY  " YdlOutcome.raises
    SearchPage.fault DetailPage.fault StreamListPage.fault (by decide)

/-- Every message the playing-phase callbacks can speak is the playback-error
    message; neither the cancel callback nor the `EndReached` callback speaks
    at all. -/
theorem sayMsgs_append (a b : List Event) :
    sayMsgs (a ++ b) = sayMsgs a ++ sayMsgs b := by
  simp [sayMsgs]

theorem sayMsgs_applyCallback_all (iv : Bool) (np : String) (cb : Callback)
    (s : SessState) :
    ((sayMsgs (applyCallback iv np cb s).2).all
      (fun m => m == "Can't play " ++ np)) = true := by
  cases cb with
  | input lvl =>
    simp only [applyCallback, onInputEvent]
    split <;> rfl
  | player e => cases e <;> simp [applyCallback, onPlayerEvent, sayMsgs]

theorem sayMsgs_runCallbacks_all (iv : Bool) (np : String)
    (cbs : List Callback) (s : SessState) :
    ((sayMsgs (runCallbacks iv np cbs s).2).all
      (fun m => m == "Can't play " ++ np)) = true := by
  induction cbs generalizing s with
  | nil => rfl
  | cons cb rest ih =>
    simp only [runCallbacks, sayMsgs_append, List.all_append,
      Bool.and_eq_true]
    exact ⟨sayMsgs_applyCallback_all iv np cb s, ih _⟩

/-- C5: a cancel-switch press observed while Playing (the interrupt callback
    firing with the pin at the active low level of the default falling-edge,
    pull-up configuration) invokes `player.stop()` and sets `done`, so the
    `while not self.done` wait terminates; the `EndReached` callback speaks
    nothing, and more generally every message the playing-phase callbacks can
    ever speak is the playback-error message, so no "now playing ended"
    report is ever spoken. -/
theorem c5_cancel_stops_and_terminates (np : String) (s : SessState)
    (cbs : List Callback) :
    onInputEvent (inputVal Polarity.falling) false s =
      ({ done := true }, [Event.playerStop]) ∧
    runCallbacks (inputVal Polarity.falling) np [Callback.input false]
      { done := false } = ({ done := true }, [Event.playerStop]) ∧
    onPlayerEvent np VlcEvent.endReached s = ({ done := true }, []) ∧
    ((sayMsgs (runCallbacks (inputVal Polarity.falling) np cbs s).2).all
      (fun m => m == "Can't play " ++ np)) = true :=
  ⟨rfl, rfl, rfl, sayMsgs_runCallbacks_all _ np cbs s⟩

/-- C9: the interrupt callback is guarded by the pin level read at callback
    time: with the configured polarity (`input_value = polarity == RISING`,
    hence low for the default falling-edge pull-up setup) the player is
    stopped and `done` set only when `GPIO.input` reads the active level; an
    invocation with the pin at the idle level leaves the session state
    unchanged and performs no player call. -/
theorem c9_input_level_guard (pol : Polarity) (pinLevel : Bool)
    (s : SessState) :
    inputVal Polarity.falling = false ∧
    (pinLevel ≠ inputVal pol →
      onInputEvent (inputVal pol) pinLevel s = (s, [])) ∧
    (pinLevel = inputVal pol →
      onInputEvent (inputVal pol) pinLevel s =
        ({ done := true }, [Event.playerStop])) := by
  refine ⟨rfl, ?_, ?_⟩ <;>
    (intro h; cases pol <;> cases pinLevel <;> simp_all [onInputEvent, inputVal])

theorem c9_witness :
    onInputEvent (inputVal Polarity.falling) true { done := false } =
      ({ done := false }, []) :=
  (c9_input_level_guard Polarity.falling true { done := false }).2.1
    (by decide)

/-- C6: arming the cancel switch on a channel whose event detection is
    already bound does not raise out of `_init_gpio`: the `RuntimeError` from
    `add_event_detect` is caught (and logged) and `add_event_callback`
    attaches one additional callback to the same channel. -/
theorem c6_rearm_soft_conflict (g : GpioState) (ch : Nat)
    (h : ch ∈ g.detect) :
    initGpio ch g = Except.ok { g with callbacks := ch :: g.callbacks } := by
  unfold initGpio addEventDetect addEventCallback
  simp [h]

theorem c6_witness :
    initGpio 23 { detect := [23], callbacks := [23] } =
      Except.ok { detect := [23], callbacks := [23, 23] } :=
  c6_rearm_soft_conflict { detect := [23], callbacks := [23] } 23 (by decide)

/-- C8 counterexample: the callbacks are not guarded by `done`, so a later
    callback against an already-terminal session is not a no-op. With a
    cancel press first (session terminal, player stopped), a later
    `EncounteredError` callback still speaks "Can't play X": the interleaving
    records two effects, and the later callback's result is not the silent
    identity the claim requires. -/
theorem c8_counterexample :
    runCallbacks (inputVal Polarity.falling) "X"
      [Callback.input false, Callback.player VlcEvent.encounteredError]
      { done := false } =
      ({ done := true }, [Event.playerStop, Event.say "Can't play X"]) ∧
    ¬ applyCallback (inputVal Polarity.falling) "X"
        (Callback.player VlcEvent.encounteredError) { done := true } =
        ({ done := true }, ([] : List Event)) := by decide

theorem applyCallback_terminal (iv : Bool) (np : String) (cb : Callback) :
    (applyCallback iv np cb { done := true }).1 = { done := true } := by
  cases cb with
  | input lvl =>
    simp only [applyCallback, onInputEvent]
    split <;> rfl
  | player e => cases e <;> rfl

/-- C8 amended: the `done` flag is indeed first-write-wins — every terminal
    callback writes `true` and none resets it, so once terminal the session
    stays terminal (it never re-enters Playing) and `done` is the only
    recorded outcome; but a later callback is not a no-op: a later
    `EncounteredError` still speaks "Can't play" and a later active-level
    press still invokes `player.stop()`. -/
theorem c8_first_write_wins_amended (np : String) (iv : Bool)
    (cbs : List Callback) :
    (runCallbacks iv np cbs { done := true }).1 = { done := true } ∧
    applyCallback iv np (Callback.player VlcEvent.encounteredError)
        { done := true } =
      ({ done := true }, [Event.say ("Can't play " ++ np)]) ∧
    applyCallback iv np (Callback.input iv) { done := true } =
      ({ done := true }, [Event.playerStop]) := by
  refine ⟨?_, rfl, ?_⟩
  · induction cbs with
    | nil => rfl
    | cons cb rest ih =>
      simp only [runCallbacks]
      rw [applyCallback_terminal iv np cb]
      exact ih
  · simp [applyCallback, onInputEvent]

/-- C3 counterexample: the claim fails in two ways. A youtube search that
    yields zero candidates as a truthy result with an empty `entries` list
    makes `meta['entries'][0]` raise an uncaught `IndexError` (the `try` only
    covers `extract_info`), so an exception does escape `run()`; and the
    radio path's zero-candidate report is the fixed sentence
    "Didn't find any stations", which does not contain the query "jazz". -/
theorem c3_counterexample :
    ytRun "play" "play daylight" (YdlOutcome.returns (some [])) =
      Except.error PyError.indexError ∧
    radioRun "radio" "radio jazz" SearchPage.noMarker DetailPage.fault
        StreamListPage.fault =
      Except.ok
        ([Event.netFetch (searchUrl "jazz"),
          Event.say "Didn't find any stations"], false) ∧
    containsSubstr "Didn't find any stations" "jazz" = false := by
  refine ⟨rfl, rfl, ?_⟩
  decide

/-- C3 amended: on the video path, a search that raises, returns a falsy
    result, or returns a falsy first entry ends with the single report
    "Failed to find <query>" — which does contain the query — and no
    exception escapes; but a truthy result whose `entries` list is empty
    raises an uncaught `IndexError` out of `run()`. On the radio path a
    search with zero candidates (no payload marker, no "Stations" category,
    or an empty category) ends with the fixed report "Didn't find any
    stations", which does not contain the query, and no exception escapes. -/
theorem c3_zero_candidates_amended (kw cmd q : String)
    (hq : q = extractQuery kw cmd) (hne : q ≠ "") :
    (ytRun kw cmd YdlOutcome.raises =
        Except.ok
          ([Event.netSearch q, Event.say ("Failed to find " ++ q)], false) ∧
      containsSubstr ("Failed to find " ++ q) q = true) ∧
    ytRun kw cmd (YdlOutcome.returns none) =
      Except.ok
        ([Event.netSearch q, Event.say ("Failed to find " ++ q)], false) ∧
    (∀ rest, ytRun kw cmd (YdlOutcome.returns (some (none :: rest))) =
      Except.ok
        ([Event.netSearch q, Event.say ("Failed to find " ++ q)], false)) ∧
    ytRun kw cmd (YdlOutcome.returns (some [])) =
      Except.error PyError.indexError ∧
    (∀ detail listPage,
      radioRun kw cmd SearchPage.noMarker detail listPage =
        Except.ok
          ([Event.netFetch (searchUrl q),
            Event.say "Didn't find any stations"], false)) ∧
    (∀ cs detail listPage, findStations FILTER_STATIONS cs = none →
      radioRun kw cmd (SearchPage.payload cs) detail listPage =
        Except.ok
          ([Event.netFetch (searchUrl q),
            Event.say "Didn't find any stations"], false)) ∧
    (∀ cs detail listPage, findStations FILTER_STATIONS cs = some [] →
      radioRun kw cmd (SearchPage.payload cs) detail listPage =
        Except.ok
          ([Event.netFetch (searchUrl q),
            Event.say "Didn't find any stations"], false)) := by
  subst hq
  refine ⟨⟨?_, containsSubstr_append _ _⟩, ?_, ?_, ?_, ?_, ?_, ?_⟩
  · unfold ytRun; rw [if_neg hne]
  · unfold ytRun; rw [if_neg hne]
  · intro rest; unfold ytRun; rw [if_neg hne]
  · unfold ytRun; rw [if_neg hne]
  · intro detail listPage; unfold radioRun; rw [if_neg hne]; rfl
  · intro cs detail listPage h
    simp [radioRun, tuneinSearch, hne, h]
  · intro cs detail listPage h
    simp [radioRun, tuneinSearch, hne, h]

theorem c3_witness :
    ytRun "play" "play daylight" YdlOutcome.raises =
      Except.ok
        ([Event.netSearch "daylight",
          Event.say ("Failed to find " ++ "daylight")], false) ∧
    containsSubstr ("Failed to find " ++ "daylight") "daylight" = true :=
  (c3_zero_candidates_amended "play" "play daylight" "daylight" (by decide)
    (by decide)).1

/-- C4 counterexample: a station-detail response body with no `"StreamUrl"`
    marker makes `re.search` return `None`, so `result.group(1)` raises an
    uncaught `AttributeError` that propagates out of `TuneInRadio.run` — the
    session does not end with a spoken report. -/
theorem c4_counterexample :
    radioRun "radio" "radio jazz"
      (SearchPage.payload
        [{ title := "Stations",
           guideItems := [{ id := "s1", title := "Jazz 24" }] }])
      DetailPage.noMarker StreamListPage.fault =
      Except.error PyError.attributeError := rfl

/-- C4 amended: the radio resolution paths that the code does guard end with
    a spoken report and no exception — no payload marker or no/empty
    "Stations" category ("Didn't find any stations"), an empty `StreamUrl`
    capture or an empty stream list ("Didn't find any streams"); but a
    station-detail body with no `"StreamUrl"` marker raises an uncaught
    `AttributeError` out of `run()`, and every fetch fault (search page,
    detail page, or stream list) propagates as an uncaught error out of
    `run()`. -/
theorem c4_radio_failures_amended (kw cmd q : String)
    (hq : q = extractQuery kw cmd) (hne : q ≠ "") (cs : List Container)
    (st : GuideItem) (rest : List GuideItem)
    (hst : findStations FILTER_STATIONS cs = some (st :: rest)) :
    (∀ detail listPage, radioRun kw cmd SearchPage.fault detail listPage =
      Except.error PyError.urlError) ∧
    (∀ detail listPage, radioRun kw cmd SearchPage.noMarker detail listPage =
      Except.ok
        ([Event.netFetch (searchUrl q),
          Event.say "Didn't find any stations"], false)) ∧
    (∀ listPage, radioRun kw cmd (SearchPage.payload cs) DetailPage.fault
        listPage = Except.error PyError.urlError) ∧
    (∀ listPage, radioRun kw cmd (SearchPage.payload cs) DetailPage.noMarker
        listPage = Except.error PyError.attributeError) ∧
    (∀ listPage, radioRun kw cmd (SearchPage.payload cs)
        (DetailPage.streamUrl "") listPage =
      Except.ok
        ([Event.netFetch (searchUrl q), Event.netFetch (stationUrl st.id),
          Event.say "Didn't find any streams"], false)) ∧
    (∀ u, u ≠ "" → radioRun kw cmd (SearchPage.payload cs)
        (DetailPage.streamUrl u) StreamListPage.fault =
      Except.error PyError.urlError) ∧
    (∀ u, u ≠ "" → radioRun kw cmd (SearchPage.payload cs)
        (DetailPage.streamUrl u) (StreamListPage.streams []) =
      Except.ok
        ([Event.netFetch (searchUrl q), Event.netFetch (stationUrl st.id),
          Event.netFetch ("http:" ++ u),
          Event.say "Didn't find any streams"], false)) := by
  subst hq
  refine ⟨?_, ?_, ?_, ?_, ?_, ?_, ?_⟩
  · intro detail listPage
    simp [radioRun, tuneinSearch, hne]
  · intro detail listPage
    simp [radioRun, tuneinSearch, hne]
  · intro listPage
    simp [radioRun, tuneinSearch, getStreamUrl, hne, hst]
  · intro listPage
    simp [radioRun, tuneinSearch, getStreamUrl, hne, hst]
  · intro listPage
    simp [radioRun, tuneinSearch, getStreamUrl, hne, hst]
  · intro u hu
    simp [radioRun, tuneinSearch, getStreamUrl, hne, hst, hu]
  · intro u hu
    simp [radioRun, tuneinSearch, getStreamUrl, hne, hst, hu]

theorem c4_witness :
    radioRun "radio" "radio jazz" SearchPage.noMarker DetailPage.fault
        StreamListPage.fault =
      Except.ok
        ([Event.netFetch (searchUrl "jazz"),
          Event.say "Didn't find any stations"], false) :=
  (c4_radio_failures_amended "radio" "radio jazz" "jazz" (by decide)
      (by decide)
      [{ title := "Stations",
         guideItems := [{ id := "s1", title := "Jazz 24" }] }]
      { id := "s1", title := "Jazz 24" } [] (by decide)).2.1
    DetailPage.fault StreamListPage.fault

/-- C7 counterexample: two of the three terminal states are silent. The
    Completed transition (`EndReached`) and the Cancelled transition (active
    cancel press) speak zero sentences, not exactly one. -/
theorem c7_counterexample :
    sayMsgs (onPlayerEvent "X" VlcEvent.endReached { done := false }).2 =
      [] ∧
    sayMsgs
      (onInputEvent (inputVal Polarity.falling) false { done := false }).2 =
      [] := by decide

/-- C7 amended: only failure outcomes speak. The `EncounteredError` terminal
    transition speaks exactly the one sentence "Can't play <label>"; the
    Completed (`EndReached`) and Cancelled (press) transitions speak nothing;
    and every pre-playback terminal return of `YouTubePlayer.run` /
    `TuneInRadio.run` (empty query, search miss, no streams) speaks exactly
    one sentence. -/
theorem c7_terminal_reports_amended (np : String) (s : SessState)
    (kw cmd : String) (ydl : YdlOutcome) (page : SearchPage)
    (detail : DetailPage) (listPage : StreamListPage) :
    sayMsgs (onPlayerEvent np VlcEvent.encounteredError s).2 =
      ["Can't play " ++ np] ∧
    sayMsgs (onPlayerEvent np VlcEvent.endReached s).2 = [] ∧
    sayMsgs (onInputEvent (inputVal Polarity.falling) false s).2 = [] ∧
    (∀ tr, ytRun kw cmd ydl = Except.ok (tr, false) →
      (sayMsgs tr).length = 1) ∧
    (∀ tr, radioRun kw cmd page detail listPage = Except.ok (tr, false) →
      (sayMsgs tr).length = 1) := by
  refine ⟨rfl, rfl, rfl, ?_, ?_⟩
  · intro tr h
    by_cases hq : extractQuery kw cmd = ""
    · simp [ytRun, hq] at h
      subst h
      simp [sayMsgs]
    · cases ydl with
      | raises =>
        simp [ytRun, hq] at h
        subst h
        simp [sayMsgs]
      | returns entries =>
        cases entries with
        | none =>
          simp [ytRun, hq] at h
          subst h
          simp [sayMsgs]
        | some l =>
          cases l with
          | nil => simp [ytRun, hq] at h
          | cons hd tl =>
            cases hd with
            | none =>
              simp [ytRun, hq] at h
              subst h
              simp [sayMsgs]
            | some ti => simp [ytRun, hq] at h
  · intro tr h
    by_cases hq : extractQuery kw cmd = ""
    · simp [radioRun, hq] at h
      subst h
      simp [sayMsgs]
    · cases page with
      | fault => simp [radioRun, tuneinSearch, hq] at h
      | noMarker =>
        simp [radioRun, tuneinSearch, hq] at h
        subst h
        simp [sayMsgs]
      | payload cs =>
        rcases hfs : findStations FILTER_STATIONS cs with _ | (_ | ⟨st, stl⟩)
        · simp [radioRun, tuneinSearch, hq, hfs] at h
          subst h
          simp [sayMsgs]
        · simp [radioRun, tuneinSearch, hq, hfs] at h
          subst h
          simp [sayMsgs]
        · cases detail with
          | fault =>
            simp [radioRun, tuneinSearch, getStreamUrl, hq, hfs] at h
          | noMarker =>
            simp [radioRun, tuneinSearch, getStreamUrl, hq, hfs] at h
          | streamUrl u =>
            by_cases hu : u = ""
            · simp [radioRun, tuneinSearch, getStreamUrl, hq, hfs, hu] at h
              subst h
              simp [sayMsgs]
            · cases listPage with
              | fault =>
                simp [radioRun, tuneinSearch, getStreamUrl, hq, hfs, hu] at h
              | noStreamsKey =>
                simp [radioRun, tuneinSearch, getStreamUrl, hq, hfs, hu] at h
              | streams urls =>
                cases urls with
                | nil =>
                  simp [radioRun, tuneinSearch, getStreamUrl, hq, hfs, hu]
                    at h
                  subst h
                  simp [sayMsgs]
                | cons u1 urest =>
                  simp [radioRun, tuneinSearch, getStreamUrl, hq, hfs, hu]
                    at h

theorem c7_witness :
    (sayMsgs [Event.say "Please specify a song"]).length = 1 :=
  (c7_terminal_reports_amended "X" { done := false } "play" "play"
      YdlOutcome.raises SearchPage.fault DetailPage.fault
      StreamListPage.fault).2.2.2.1
    [Event.say "Please specify a song"] (by rfl)

theorem setVolumes_append (a b : List Event) :
    setVolumes (a ++ b) = setVolumes a ++ setVolumes b := by
  simp [setVolumes]

theorem setVolumes_volumeTell (v : Option Int) (a : Int) :
    setVolumes (volumeTell v a).2 = [] := by
  cases v with
  | none => rfl
  | some x =>
    simp only [volumeTell]
    split <;> rfl

theorem setVolumes_cons_setVolume (v : Int) (rest : List Event) :
    setVolumes (Event.setVolume v :: rest) = v :: setVolumes rest := by
  simp [setVolumes]

theorem setVolumes_setThenTell (x a : Int) :
    setVolumes (setThenTell (volumeSet x) a).2 = [max 0 (min 100 x)] := by
  simp [setThenTell, volumeSet, setVolumes_cons_setVolume,
    setVolumes_volumeTell]

/-- C10: `VolumeControl.set` clamps its integer argument to 0..100 before
    applying and recording it, and consequently every volume that any
    invocation of `VolumeControl.run` applies — including the ±10 results of
    `increment` and values parsed from the voice command — lies in 0..100. -/
theorem c10_volume_clamped (value : Int) (kw cmd : String) (amixer : Int)
    (value0 : Option Int) :
    (volumeSet value).1 = max 0 (min 100 value) ∧
    0 ≤ (volumeSet value).1 ∧ (volumeSet value).1 ≤ 100 ∧
    ((setVolumes (volumeRun kw cmd amixer value0).2).all
      (fun v => decide (0 ≤ v) && decide (v ≤ 100))) = true := by
  refine ⟨rfl, ?_, ?_, ?_⟩
  · simp only [volumeSet]
    omega
  · simp only [volumeSet]
    omega
  · unfold volumeRun
    dsimp only []
    split
    · rw [setVolumes_setThenTell]
      simp only [List.all_cons, List.all_nil, Bool.and_true,
        Bool.and_eq_true, decide_eq_true_eq]
      constructor <;> omega
    · split
      · rw [setVolumes_setThenTell]
        simp only [List.all_cons, List.all_nil, Bool.and_true,
          Bool.and_eq_true, decide_eq_true_eq]
        constructor <;> omega
      · split
        · rw [setVolumes_setThenTell]
          simp only [List.all_cons, List.all_nil, Bool.and_true,
            Bool.and_eq_true, decide_eq_true_eq]
          constructor <;> omega
        · split
          · rw [setVolumes_setThenTell]
            simp only [List.all_cons, List.all_nil, Bool.and_true,
              Bool.and_eq_true, decide_eq_true_eq]
            constructor <;> omega
          · split
            · split
              · rw [setVolumes_setThenTell]
                simp only [List.all_cons, List.all_nil, Bool.and_true,
                  Bool.and_eq_true, decide_eq_true_eq]
                constructor <;> omega
              · rfl
            · rw [setVolumes_volumeTell]
              rfl

end Action
